import Mathlib

/-
Verification of the non-blocking SPI transfer subsystem
(src/rust/mynewt/src/spi.rs) against its design specification.

The Rust module is shallowly embedded: each function becomes a Lean
function over an explicit session state, returning the resulting state
together with a trace of the effects it performs on the external
collaborators (HAL calls, GPIO writes, OS primitives).  Return codes of
the external primitives are supplied as explicit environment parameters.
-/

namespace Spi

/-- `DISPLAY_SPI`: Mynewt SPI port 0 (const in spi.rs). -/
def DISPLAY_SPI : Int := 0

/-- `DISPLAY_CS`: LCD_CS (P0.25), chip select pin (const in spi.rs). -/
def DISPLAY_CS : Int := 25

/-- `SPI_NUM = DISPLAY_SPI` (const in spi.rs). -/
def SPI_NUM : Int := DISPLAY_SPI

/-- `SPI_SS_PIN = DISPLAY_CS` (const in spi.rs). -/
def SPI_SS_PIN : Int := DISPLAY_CS

/-- `SPI_TASK_STACK_SIZE = 256` (const in spi.rs), in 4-byte units. -/
def SPI_TASK_STACK_SIZE : Nat := 256

/-- Mynewt HAL constant `HAL_SPI_MSB_FIRST` (external HAL header; the
subsystem passes it through opaquely). -/
def HAL_SPI_MSB_FIRST : Nat := 0

/-- Mynewt HAL constant `HAL_SPI_MODE3` (external HAL header). -/
def HAL_SPI_MODE3 : Nat := 3

/-- Mynewt HAL constant `HAL_SPI_WORD_SIZE_8BIT` (external HAL header). -/
def HAL_SPI_WORD_SIZE_8BIT : Nat := 0

/-- Embedding of `hal::hal_spi_settings`. -/
structure hal_spi_settings where
  data_order : Nat
  data_mode : Nat
  baudrate : Nat
  word_size : Nat
deriving DecidableEq, Repr

/-- `SPI_SETTINGS` static of spi.rs: settings for the ST7789 display
controller (MSB first, mode 3, 8000 kHz, 8-bit words). -/
def SPI_SETTINGS : hal_spi_settings :=
  ⟨HAL_SPI_MSB_FIRST, HAL_SPI_MODE3, 8000, HAL_SPI_WORD_SIZE_8BIT⟩

/-- Embedding of `struct spi_cb_arg`: the completion counters. -/
structure spi_cb_arg where
  transfers : Int
  txlen : Int
  tx_rx_bytes : Nat
deriving DecidableEq, Repr

/-- Mutable session state of the subsystem: the completion counters
(`spi_cb_obj`), the request queue of pending mbuf chains
(`SPI_DATA_QUEUE`, FIFO of opaque buffer ids), the counting semaphore
token count (`SPI_SEM`), and the number of free buffers in the mbuf
pool. -/
structure SpiState where
  spi_cb_obj : spi_cb_arg
  spi_data_queue : List Nat
  sem_tokens : Nat
  pool_free : Nat
deriving DecidableEq, Repr

/-- One observable action on an external collaborator (HAL, GPIO, OS
primitives), in the order the code performs them. -/
inductive Effect where
  | spiDisable (num : Int)
  | spiConfig (num : Int) (settings : hal_spi_settings)
  | spiSetTxrxCb (num : Int)
  | spiEnable (num : Int)
  | gpioInitOut (pin : Int) (level : Int)
  | gpioWrite (pin : Int) (level : Int)
  | spiTxrxNoblock (num : Int) (txbuffer : Nat) (rxbuffer : Option Nat) (txlen : Int)
  | eventqInit
  | mqueueInit
  | semInit (tokens : Nat)
  | taskInit (name : String) (prio : Nat) (stackSize : Nat)
  | calloutInit
  | calloutReset (ticks : Nat)
  | semPend (ticks : Nat)
  | semRelease
  | mqueueGet
  | mqueuePut (om : Nat)
  | mbufAlloc (om : Nat)
  | mbufFreeChain (om : Nat)
deriving DecidableEq, Repr

/-- Error type standing for the crate's `MynewtError` (from
`crate::result`, outside this module; the init code only propagates it
unchanged through `?`). -/
inductive MynewtError where
  | SYS_EUNKNOWN
deriving DecidableEq, Repr

/-- Outcome of a fallible embedded function: `Ok`, a propagated
`MynewtError` (the Rust `?` path), or a panic from a failed
`assert_eq!`. -/
inductive Outcome (α : Type) where
  | ok (a : α)
  | err (e : MynewtError)
  | panic (msg : String)
deriving DecidableEq, Repr

/-- Return codes the external primitives hand back during
`spi_noblock_init`: one per fallible call, in source order. -/
structure InitEnv where
  config_rc : Int
  set_cb_rc : Int
  enable_rc : Int
  gpio_rc : Int
  mqueue_rc : Int
  sem_rc : Int
  task_err : Option MynewtError
  eventq_dflt_err : Option MynewtError
deriving DecidableEq, Repr

/-- Embedding of `spi_noblock_init`.  Mirrors the source line by line:
disable the bus; `hal_spi_config` with `SPI_SETTINGS` then
`assert_eq!(rc, 0)`; install the completion callback then assert;
re-enable then assert; `hal_gpio_init_out(SPI_SS_PIN, 1)` then assert;
`os_eventq_init`; `os_mqueue_init` then assert; `os_sem_init(0)` then
assert; `task_init("spi", prio 10, stack 256)` with `?`; then
`os_callout_init(eventq_dflt_get()?, spi_noblock_callback)`.  A failed
`assert_eq!` is a panic; `?` propagates the error. -/
def spi_noblock_init (env : InitEnv) : Outcome Unit × List Effect :=
  let t1 := [Effect.spiDisable SPI_NUM, Effect.spiConfig SPI_NUM SPI_SETTINGS]
  if env.config_rc ≠ 0 then (Outcome.panic "spi config fail", t1) else
  let t2 := t1 ++ [Effect.spiSetTxrxCb SPI_NUM]
  if env.set_cb_rc ≠ 0 then (Outcome.panic "spi cb fail", t2) else
  let t3 := t2 ++ [Effect.spiEnable SPI_NUM]
  if env.enable_rc ≠ 0 then (Outcome.panic "spi enable fail", t3) else
  let t4 := t3 ++ [Effect.gpioInitOut SPI_SS_PIN 1]
  if env.gpio_rc ≠ 0 then (Outcome.panic "gpio fail", t4) else
  let t5 := t4 ++ [Effect.eventqInit, Effect.mqueueInit]
  if env.mqueue_rc ≠ 0 then (Outcome.panic "mqueue fail", t5) else
  let t6 := t5 ++ [Effect.semInit 0]
  if env.sem_rc ≠ 0 then (Outcome.panic "sem fail", t6) else
  let t7 := t6 ++ [Effect.taskInit "spi" 10 SPI_TASK_STACK_SIZE]
  match env.task_err with
  | some e => (Outcome.err e, t7)
  | none =>
    match env.eventq_dflt_err with
    | some e => (Outcome.err e, t7)
    | none => (Outcome.ok (), t7 ++ [Effect.calloutInit])

/-- Embedding of `spi_noblock_write`.  In the source every step of the
documented copy-and-enqueue behaviour is commented out; the body is
exactly `Ok(())`: no state change and no effect. -/
def spi_noblock_write (_words : List Nat) (s : SpiState) :
    Outcome Unit × SpiState × List Effect :=
  (Outcome.ok (), s, [])

/-- Return code of `hal_spi_txrx_noblock` inside
`internal_spi_noblock_write`. -/
structure TxEnv where
  txrx_rc : Int
deriving DecidableEq, Repr

/-- Embedding of `internal_spi_noblock_write`: store `txlen` into
`spi_cb_obj.txlen`, drive the SS pin low, then call
`hal_spi_txrx_noblock(SPI_NUM, txbuffer, NULL, txlen)` (no RX buffer)
and `assert_eq!(rc, 0)`. -/
def internal_spi_noblock_write (env : TxEnv) (txbuffer : Nat) (txlen : Int)
    (s : SpiState) : Outcome Unit × SpiState × List Effect :=
  let s1 := { s with spi_cb_obj := { s.spi_cb_obj with txlen := txlen } }
  let effs := [Effect.gpioWrite SPI_SS_PIN 0,
               Effect.spiTxrxNoblock SPI_NUM txbuffer none txlen]
  if env.txrx_rc = 0 then (Outcome.ok (), s1, effs)
  else (Outcome.panic "spi fail", s1, effs)

/-- `OS_TICKS_PER_SEC` as bound in `spi_event_callback` (`let
OS_TICKS_PER_SEC = 1000`). -/
def OS_TICKS_PER_SEC : Nat := 1000

/-- The tick argument passed to `os_sem_pend` in `spi_event_callback`:
`timeout * OS_TICKS_PER_SEC / 1000` (Nat division, matching the exact
integer arithmetic of the source). -/
def sem_pend_ticks (timeout : Nat) : Nat := timeout * OS_TICKS_PER_SEC / 1000

/-- The fixed timeout value used by the worker: `timeout = 1000` in the
source. -/
def SPI_SEM_TIMEOUT_TICKS : Nat := sem_pend_ticks 1000

/-- The effect trace of the `loop` in `spi_event_callback`, as a
function of the queue contents: each iteration calls `os_mqueue_get`;
on an empty queue it breaks; otherwise it pends on `SPI_SEM` with the
fixed timeout (the return value is discarded by the source) and frees
the dequeued mbuf chain. -/
def spi_event_drain : List Nat → List Effect
  | [] => [Effect.mqueueGet]
  | om :: rest =>
      Effect.mqueueGet :: Effect.semPend SPI_SEM_TIMEOUT_TICKS ::
      Effect.mbufFreeChain om :: spi_event_drain rest

/-- Embedding of `spi_event_callback` (the worker's mqueue callback):
drains the whole request queue, freeing every dequeued buffer; it never
touches `spi_cb_obj`, the semaphore token count, or the SS pin. -/
def spi_event_callback (s : SpiState) : SpiState × List Effect :=
  ({ s with spi_data_queue := [] }, spi_event_drain s.spi_data_queue)

/-- Embedding of `spi_noblock_handler` (the completion interrupt
handler): drive the SS pin high, then `os_callout_reset(spi_callout,
0)`.  The `os_sem_release(&SPI_SEM)` step present in the source is
commented out, so no semaphore release is performed. -/
def spi_noblock_handler (_arg : Nat) (_len : Int) (s : SpiState) :
    SpiState × List Effect :=
  (s, [Effect.gpioWrite SPI_SS_PIN 1, Effect.calloutReset 0])

/-- Embedding of `spi_noblock_callback` (the callout handler): the body
is a TODO comment; it does nothing. -/
def spi_noblock_callback (s : SpiState) : SpiState × List Effect :=
  (s, [])

/-- An all-success environment for `spi_noblock_init`, used as a
concrete instantiation. -/
def initEnvOk : InitEnv := ⟨0, 0, 0, 0, 0, 0, none, none⟩

/-- Environment in which `hal_spi_config` rejects the configuration
(returns a non-zero rc) and everything else succeeds. -/
def initEnvBadConfig : InitEnv := ⟨1, 0, 0, 0, 0, 0, none, none⟩

/-- A sample concrete session state with one queued buffer (id 7). -/
def stateOneQueued : SpiState := ⟨⟨0, 0, 0⟩, [7], 0, 3⟩

/-- The drain loop of the worker never writes any GPIO pin: chip-select
is untouched for every queue content. -/
theorem spi_event_drain_no_gpio (q : List Nat) (pin level : Int) :
    Effect.gpioWrite pin level ∉ spi_event_drain q := by
  induction q with
  | nil => simp [spi_event_drain]
  | cons om rest ih => simp [spi_event_drain, ih]

/-- Claim C1 (code evidence): `spi_noblock_write` on the concrete input
`[1, 2]` returns `Ok(())`, changes no state, and performs no effect at
all — in particular it never enqueues the request and never reports
`QueueFull` or allocation failure, contradicting the claim that a
request is never silently accepted without enqueueing. -/
theorem c1_submit_accepts_without_enqueue :
    spi_noblock_write [1, 2] stateOneQueued =
      (Outcome.ok (), stateOneQueued, []) := rfl

/-- Claim C2 (code evidence): on every invocation the completion
interrupt handler deasserts chip-select (SS pin high) and arms the
callout with zero delay, in that order, but performs zero semaphore
releases — the `os_sem_release` step is commented out in the source —
contradicting the claim that it releases the semaphore exactly once. -/
theorem c2_handler_never_releases_semaphore :
    ∀ a l s, (spi_noblock_handler a l s).2 =
        [Effect.gpioWrite SPI_SS_PIN 1, Effect.calloutReset 0] ∧
      Effect.semRelease ∉ (spi_noblock_handler a l s).2 ∧
      (spi_noblock_handler a l s).1 = s := by
  intro a l s
  exact ⟨rfl, by simp [spi_noblock_handler], rfl⟩

/-- Claim C3 (code evidence): when `hal_spi_config` rejects the
configuration (non-zero rc), `spi_noblock_init` panics via
`assert_eq!` ("spi config fail") instead of returning an `InitError`
value to the caller. -/
theorem c3_init_panics_on_config_failure :
    spi_noblock_init initEnvBadConfig =
      (Outcome.panic "spi config fail",
       [Effect.spiDisable SPI_NUM, Effect.spiConfig SPI_NUM SPI_SETTINGS]) := by
  decide

/-- Claim C4 counterexample: with one queued buffer and the semaphore
wait timing out (the handler never releases the semaphore, so every
wait times out), the worker's trace contains no chip-select write at
all — chip-select is not forced high, contrary to the claim. -/
theorem c4_timeout_does_not_force_cs_high :
    Effect.gpioWrite SPI_SS_PIN 1 ∉ (spi_event_callback stateOneQueued).2 := by
  decide

/-- Claim C4 as amended: when the worker's queue holds an item (the
semaphore wait result is discarded by the code, so the behaviour on
timeout equals the behaviour on success), the dequeued buffer is
released back to the pool, the completion counters are unchanged, the
worker proceeds to drain every remaining queued item, and chip-select
is never written by the worker. -/
theorem c4_timeout_recovery_amended (s : SpiState) (om : Nat) (rest : List Nat)
    (h : s.spi_data_queue = om :: rest) :
    (spi_event_callback s).2 =
        Effect.mqueueGet :: Effect.semPend SPI_SEM_TIMEOUT_TICKS ::
        Effect.mbufFreeChain om :: spi_event_drain rest ∧
      Effect.mbufFreeChain om ∈ (spi_event_callback s).2 ∧
      (spi_event_callback s).1.spi_cb_obj = s.spi_cb_obj ∧
      (spi_event_callback s).1.spi_data_queue = [] ∧
      (∀ pin level, Effect.gpioWrite pin level ∉ (spi_event_callback s).2) := by
  refine ⟨?_, ?_, rfl, rfl, ?_⟩
  · simp [spi_event_callback, h, spi_event_drain]
  · simp [spi_event_callback, h, spi_event_drain]
  · intro pin level
    exact spi_event_drain_no_gpio s.spi_data_queue pin level

/-- Witness for C4: the amended theorem instantiated at the concrete
state with queue `[7]`. -/
theorem c4_timeout_recovery_amended_witness :
    stateOneQueued.spi_data_queue = 7 :: [] ∧
      ((spi_event_callback stateOneQueued).2 =
        Effect.mqueueGet :: Effect.semPend SPI_SEM_TIMEOUT_TICKS ::
        Effect.mbufFreeChain 7 :: spi_event_drain [] ∧
      Effect.mbufFreeChain 7 ∈ (spi_event_callback stateOneQueued).2 ∧
      (spi_event_callback stateOneQueued).1.spi_cb_obj = stateOneQueued.spi_cb_obj ∧
      (spi_event_callback stateOneQueued).1.spi_data_queue = [] ∧
      (∀ pin level, Effect.gpioWrite pin level ∉ (spi_event_callback stateOneQueued).2)) :=
  ⟨rfl, c4_timeout_recovery_amended stateOneQueued 7 [] rfl⟩

/-- Claim C5 counterexample: `internal_spi_noblock_write` — the
transfer-initiation operation, not the completion interrupt handler —
mutates the completion-counter record: at a concrete input it changes
`spi_cb_obj` (writing `txlen`), so the counters are not mutated only by
the handler. -/
theorem c5_txlen_written_outside_handler :
    (internal_spi_noblock_write ⟨0⟩ 1 5 stateOneQueued).2.1.spi_cb_obj ≠
      stateOneQueued.spi_cb_obj := by
  decide

/-- Claim C5 as amended: `transfers` and `tx_rx_bytes` are written by
no operation of the subsystem; `txlen` is written only by
`internal_spi_noblock_write` (which sets it to the transfer length),
and in particular the completion interrupt handler mutates none of the
counters. -/
theorem c5_counters_mutation_amended :
    (∀ a l s, (spi_noblock_handler a l s).1.spi_cb_obj = s.spi_cb_obj) ∧
    (∀ w s, (spi_noblock_write w s).2.1.spi_cb_obj = s.spi_cb_obj) ∧
    (∀ s, (spi_event_callback s).1.spi_cb_obj = s.spi_cb_obj) ∧
    (∀ s, (spi_noblock_callback s).1.spi_cb_obj = s.spi_cb_obj) ∧
    (∀ env buf len s,
      (internal_spi_noblock_write env buf len s).2.1.spi_cb_obj.transfers
          = s.spi_cb_obj.transfers ∧
      (internal_spi_noblock_write env buf len s).2.1.spi_cb_obj.tx_rx_bytes
          = s.spi_cb_obj.tx_rx_bytes ∧
      (internal_spi_noblock_write env buf len s).2.1.spi_cb_obj.txlen = len) := by
  refine ⟨fun a l s => rfl, fun w s => rfl, fun s => rfl, fun s => rfl, ?_⟩
  intro env buf len s
  unfold internal_spi_noblock_write
  split_ifs <;> exact ⟨rfl, rfl, rfl⟩

/-- Claim C6: on an environment in which every primitive succeeds,
`spi_noblock_init` performs exactly, in order: disable the bus, apply
the fixed configuration, install the completion handler, re-enable the
bus, configure the chip-select line as an output driven high, create
the event queue, the request mqueue, the semaphore with 0 tokens, the
worker task ("spi", priority 10, stack 256), and the callout bound to
the default event queue — and returns `Ok(())`. -/
theorem c6_init_order (env : InitEnv)
    (h : env.config_rc = 0 ∧ env.set_cb_rc = 0 ∧ env.enable_rc = 0 ∧
         env.gpio_rc = 0 ∧ env.mqueue_rc = 0 ∧ env.sem_rc = 0 ∧
         env.task_err = none ∧ env.eventq_dflt_err = none) :
    spi_noblock_init env =
      (Outcome.ok (),
       [Effect.spiDisable SPI_NUM,
        Effect.spiConfig SPI_NUM SPI_SETTINGS,
        Effect.spiSetTxrxCb SPI_NUM,
        Effect.spiEnable SPI_NUM,
        Effect.gpioInitOut SPI_SS_PIN 1,
        Effect.eventqInit, Effect.mqueueInit,
        Effect.semInit 0,
        Effect.taskInit "spi" 10 SPI_TASK_STACK_SIZE,
        Effect.calloutInit]) := by
  obtain ⟨h1, h2, h3, h4, h5, h6, h7, h8⟩ := h
  simp [spi_noblock_init, h1, h2, h3, h4, h5, h6, h7, h8]

/-- Witness for C6: the theorem instantiated at the all-success
environment. -/
theorem c6_init_order_witness :
    (initEnvOk.config_rc = 0 ∧ initEnvOk.set_cb_rc = 0 ∧ initEnvOk.enable_rc = 0 ∧
     initEnvOk.gpio_rc = 0 ∧ initEnvOk.mqueue_rc = 0 ∧ initEnvOk.sem_rc = 0 ∧
     initEnvOk.task_err = none ∧ initEnvOk.eventq_dflt_err = none) ∧
    spi_noblock_init initEnvOk =
      (Outcome.ok (),
       [Effect.spiDisable SPI_NUM,
        Effect.spiConfig SPI_NUM SPI_SETTINGS,
        Effect.spiSetTxrxCb SPI_NUM,
        Effect.spiEnable SPI_NUM,
        Effect.gpioInitOut SPI_SS_PIN 1,
        Effect.eventqInit, Effect.mqueueInit,
        Effect.semInit 0,
        Effect.taskInit "spi" 10 SPI_TASK_STACK_SIZE,
        Effect.calloutInit]) :=
  ⟨by decide, c6_init_order initEnvOk (by decide)⟩

/-- Claim C7: for every environment, buffer, length and state, the
transfer-initiation operation's effect trace is exactly: chip-select
driven low first, then the non-blocking transfer primitive invoked with
the buffer and no receive buffer (write-only). -/
theorem c7_transfer_cs_low_then_txrx_no_rx :
    ∀ env buf len s, (internal_spi_noblock_write env buf len s).2.2 =
      [Effect.gpioWrite SPI_SS_PIN 0,
       Effect.spiTxrxNoblock SPI_NUM buf none len] := by
  intro env buf len s
  unfold internal_spi_noblock_write
  split_ifs <;> rfl

/-- Claim C8: the worker's semaphore wait uses the fixed tick value
`timeout * OS_TICKS_PER_SEC / 1000` with `timeout = 1000` and
`OS_TICKS_PER_SEC = 1000`, which evaluates exactly to 1000, and every
non-empty drain step pends with exactly that value. -/
theorem c8_sem_timeout_ticks :
    SPI_SEM_TIMEOUT_TICKS = 1000 ∧
    sem_pend_ticks 1000 = 1000 ∧
    OS_TICKS_PER_SEC = 1000 ∧
    (∀ om rest, spi_event_drain (om :: rest) =
      Effect.mqueueGet :: Effect.semPend 1000 ::
      Effect.mbufFreeChain om :: spi_event_drain rest) :=
  ⟨rfl, rfl, rfl, fun _ _ => rfl⟩

/-- Claim C9: for every input byte slice and every session state,
`spi_noblock_write` returns `Ok(())`, leaves the state (queue, pool,
counters, semaphore) unchanged, and performs no effect. -/
theorem c9_write_ok_no_effect :
    ∀ words s, spi_noblock_write words s = (Outcome.ok (), s, []) :=
  fun _ _ => rfl

/-- Claim C10: in every environment the initialization trace applies
the configuration `SPI_SETTINGS` to `SPI_NUM`, and `SPI_SETTINGS` is
exactly MSB-first data order, SPI mode 3, 8000 kHz baudrate and 8-bit
word size. -/
theorem c10_spi_settings_fixed :
    (∀ env, Effect.spiConfig SPI_NUM SPI_SETTINGS ∈ (spi_noblock_init env).2) ∧
    SPI_SETTINGS.data_order = HAL_SPI_MSB_FIRST ∧
    SPI_SETTINGS.data_mode = HAL_SPI_MODE3 ∧
    SPI_SETTINGS.baudrate = 8000 ∧
    SPI_SETTINGS.word_size = HAL_SPI_WORD_SIZE_8BIT := by
  refine ⟨?_, rfl, rfl, rfl, rfl⟩
  intro env
  obtain ⟨c1, c2, c3, c4, c5, c6, te, ee⟩ := env
  unfold spi_noblock_init
  split_ifs <;> try simp
  cases te <;> cases ee <;> simp

end Spi
